import Mathlib

/-!
Shallow embedding of src/main.py (Alpaca trading bot).

Closing prices are modelled as rationals. A missing value (pandas NaN,
produced by a rolling mean over fewer observations than its window) is
modelled as "none"; every comparison against a missing value is false,
matching IEEE-754 NaN comparison semantics used by pandas.
-/

/-- The simple moving average of the closing-price series at position i with
window w, mirroring pandas rolling(window=w).mean(): defined (some) exactly
when the window is positive and at least w observations end at position i,
otherwise missing (none). -/
def smaAt (w : Nat) (closes : List ℚ) (i : Nat) : Option ℚ :=
  if 0 < w ∧ w ≤ i + 1 ∧ i < closes.length then
    some (((closes.drop (i + 1 - w)).take w).sum / (w : ℚ))
  else none

/-- Float comparison a <= b where either side may be NaN (none): false then. -/
def nanLe (a b : Option ℚ) : Bool :=
  match a, b with
  | some x, some y => decide (x ≤ y)
  | _, _ => false

/-- Float comparison a > b where either side may be NaN (none): false then. -/
def nanGt (a b : Option ℚ) : Bool :=
  match a, b with
  | some x, some y => decide (y < x)
  | _, _ => false

/-- Float comparison a >= b where either side may be NaN (none): false then. -/
def nanGe (a b : Option ℚ) : Bool :=
  match a, b with
  | some x, some y => decide (y ≤ x)
  | _, _ => false

/-- Float comparison a < b where either side may be NaN (none): false then. -/
def nanLt (a b : Option ℚ) : Bool :=
  match a, b with
  | some x, some y => decide (x < y)
  | _, _ => false

/-- First (shadowed) definition of simple_moving_average_strategy,
src/main.py lines 99-134: validates emptiness, length against long_window,
a two-point minimum, and missing rolling averages at the previous point,
then applies the crossover rule. -/
def smaStrategyValidated (closes : List ℚ) (short_window long_window : Nat) :
    String :=
  if closes.length = 0 then "hold"
  else if closes.length < long_window then "hold"
  else if closes.length < 2 then "hold"
  else
    let prevS := smaAt short_window closes (closes.length - 2)
    let prevL := smaAt long_window closes (closes.length - 2)
    let latS := smaAt short_window closes (closes.length - 1)
    let latL := smaAt long_window closes (closes.length - 1)
    if prevS.isNone || prevL.isNone then "hold"
    else if nanLe prevS prevL && nanGt latS latL then "buy"
    else if nanGe prevS prevL && nanLt latS latL then "sell"
    else "hold"

/-- Second (effective, shadowing) definition of
simple_moving_average_strategy, src/main.py lines 136-161. It guards only
emptiness and length against long_window; accessing the second-to-last row
of a one-row frame would raise IndexError, modelled as none. -/
def simple_moving_average_strategy (closes : List ℚ)
    (short_window long_window : Nat) : Option String :=
  if closes.length = 0 ∨ closes.length < long_window then some "hold"
  else if closes.length < 2 then none
  else
    let prevS := smaAt short_window closes (closes.length - 2)
    let prevL := smaAt long_window closes (closes.length - 2)
    let latS := smaAt short_window closes (closes.length - 1)
    let latL := smaAt long_window closes (closes.length - 1)
    if nanLe prevS prevL && nanGt latS latL then some "buy"
    else if nanGe prevS prevL && nanLt latS latL then some "sell"
    else some "hold"

/-- The scenario series of the spec: 50 closes of 10 followed by one 11. -/
def demoSeries : List ℚ := List.replicate 50 10 ++ [11]

/-- Failures raised by the brokerage SDK, modelled abstractly. -/
inductive ApiError
  | network
  | rejected
  | notFound
  | authFailure
  deriving DecidableEq, Repr

/-- The clock snapshot returned by get_clock. -/
structure Clock where
  is_open : Bool
  deriving DecidableEq, Repr

/-- The raw account snapshot returned by the SDK get_account. -/
structure RawAccount where
  buying_power : ℚ
  cash : ℚ
  portfolio_value : ℚ
  equity : ℚ
  deriving DecidableEq, Repr

/-- The four-field record built by get_account_info. -/
structure AccountInfo where
  buying_power : ℚ
  cash : ℚ
  portfolio_value : ℚ
  equity : ℚ
  deriving DecidableEq, Repr

/-- The raw position returned by the SDK get_position. -/
structure RawPosition where
  symbol : String
  qty : ℚ
  market_value : ℚ
  avg_entry_price : ℚ
  deriving DecidableEq, Repr

/-- The four-field record built by TradingBot.get_position. -/
structure PositionInfo where
  symbol : String
  qty : ℚ
  market_value : ℚ
  avg_entry_price : ℚ
  deriving DecidableEq, Repr

/-- Asset metadata returned by get_asset. -/
structure Asset where
  tradable : Bool
  status : String
  deriving DecidableEq, Repr

/-- An order result; the source only touches its id. -/
structure Order where
  id : Nat
  deriving DecidableEq, Repr

/-- TradingBot constructor, src/main.py lines 17-28. The SDK calls made
during construction are passed in as their outcomes. The try block logs and
re-raises every exception, so a failing get_clock probe or a failing
get_account fetch propagates; on success the bot holds the fetched account. -/
def trading_bot_init (clock : Except ApiError Clock)
    (account : Except ApiError RawAccount) : Except ApiError RawAccount :=
  match clock with
  | .error e => .error e
  | .ok _ =>
    match account with
    | .error e => .error e
    | .ok a => .ok a

/-- check_market_hours, src/main.py lines 30-40: returns clock.is_open,
and false when the clock query raises. -/
def check_market_hours (clock : Except ApiError Clock) : Bool :=
  match clock with
  | .ok c => c.is_open
  | .error _ => false

/-- get_account_info, src/main.py lines 42-52: re-fetches the account and
maps it into four numeric fields. There is no try block, so a failing
fetch propagates to the caller. -/
def get_account_info (fetch : Except ApiError RawAccount) :
    Except ApiError AccountInfo :=
  match fetch with
  | .ok a => .ok ⟨a.buying_power, a.cash, a.portfolio_value, a.equity⟩
  | .error e => .error e

/-- get_position, src/main.py lines 54-67: maps a fetched position into a
record, and returns none when the fetch raises for any reason (a bare
except clause), including the SDK error for "no position exists". -/
def get_position (fetch : Except ApiError RawPosition) : Option PositionInfo :=
  match fetch with
  | .ok p => some ⟨p.symbol, p.qty, p.market_value, p.avg_entry_price⟩
  | .error _ => none

/-- is_symbol_tradeable, src/main.py lines 217-222: true when the asset is
tradable with active status; false when the asset lookup raises. -/
def is_symbol_tradeable (fetch : Except ApiError Asset) : Bool :=
  match fetch with
  | .ok a => a.tradable && (a.status == "active")
  | .error _ => false

/-- ASCII lowercasing of one character, as Python str.lower acts on the
ASCII side strings used here. -/
def lowerChar (c : Char) : Char :=
  if 65 ≤ c.toNat ∧ c.toNat ≤ 90 then Char.ofNat (c.toNat + 32) else c

/-- Python str.lower on a string, character by character. -/
def lower (s : String) : String := ⟨s.data.map lowerChar⟩

/-- execute_trade, src/main.py lines 162-184. The submit argument is the
Market Service Client order submission. The returned Bool records whether
submit_order was invoked. An invalid side raises ValueError inside the try
block, caught by the handler, which returns None (no order) without ever
calling submit_order; a client failure during submission is caught by the
same handler and also yields None. -/
def execute_trade (symbol : String) (qty : ℚ) (side : String)
    (submit : String → ℚ → String → Except ApiError Order) :
    Option Order × Bool :=
  if lower side ≠ "buy" ∧ lower side ≠ "sell" then (none, false)
  else
    match submit symbol qty side with
    | .ok o => (some o, true)
    | .error _ => (none, true)

/-- What one iteration of the run_bot while loop observes: the market was
closed (or the clock query failed, which check_market_hours folds into
closed), the trading logic succeeded, or the trading logic raised. -/
inductive BotEvent
  | marketClosed
  | tradeSuccess
  | tradeFailure
  deriving DecidableEq, Repr

/-- The loop state of run_bot: the retry counter and whether the loop is
still running (false once the break at the top of an iteration fires). -/
structure LoopState where
  retry_count : Nat
  running : Bool
  deriving DecidableEq, Repr

/-- The max_retries constant of run_bot, src/main.py line 193. -/
def run_bot_max_retries : Nat := 3

/-- One iteration of the run_bot while loop, src/main.py lines 195-215,
returning the next state and the seconds slept. The iteration first breaks
when the retry counter has reached max_r; otherwise a closed market sleeps
300 seconds and continues, a successful iteration resets the counter and
sleeps 60 seconds, and an exception increments the counter and sleeps 10
seconds. -/
def bot_step (max_r : Nat) (s : LoopState) (ev : BotEvent) :
    LoopState × Nat :=
  if s.running = false then (s, 0)
  else if max_r ≤ s.retry_count then ({ s with running := false }, 0)
  else
    match ev with
    | .marketClosed => (s, 300)
    | .tradeSuccess => ({ s with retry_count := 0 }, 60)
    | .tradeFailure => ({ s with retry_count := s.retry_count + 1 }, 10)

/-! Helper lemmas. -/

@[simp] lemma nanLe_some_some (x y : ℚ) :
    nanLe (some x) (some y) = decide (x ≤ y) := rfl

@[simp] lemma nanGt_some_some (x y : ℚ) :
    nanGt (some x) (some y) = decide (y < x) := rfl

@[simp] lemma nanGe_some_some (x y : ℚ) :
    nanGe (some x) (some y) = decide (y ≤ x) := rfl

@[simp] lemma nanLt_some_some (x y : ℚ) :
    nanLt (some x) (some y) = decide (x < y) := rfl

@[simp] lemma nanLe_none_right (a : Option ℚ) : nanLe a none = false := by
  cases a <;> rfl

@[simp] lemma nanLe_none_left (b : Option ℚ) : nanLe none b = false := by
  cases b <;> rfl

@[simp] lemma nanGe_none_right (a : Option ℚ) : nanGe a none = false := by
  cases a <;> rfl

@[simp] lemma nanGe_none_left (b : Option ℚ) : nanGe none b = false := by
  cases b <;> rfl

/-- smaAt is defined exactly on positive windows fitting inside the series. -/
lemma smaAt_isSome_iff (w : Nat) (closes : List ℚ) (i : Nat) :
    (smaAt w closes i).isSome ↔ 0 < w ∧ w ≤ i + 1 ∧ i < closes.length := by
  unfold smaAt
  split <;> simp_all

/-- Evaluation of the effective strategy past its two guards. -/
lemma simple_sma_eval (closes : List ℚ) (sw lw : Nat)
    (h0 : ¬(closes.length = 0 ∨ closes.length < lw))
    (h2 : ¬closes.length < 2) :
    simple_moving_average_strategy closes sw lw =
      (if nanLe (smaAt sw closes (closes.length - 2))
            (smaAt lw closes (closes.length - 2)) &&
          nanGt (smaAt sw closes (closes.length - 1))
            (smaAt lw closes (closes.length - 1)) then some "buy"
       else if nanGe (smaAt sw closes (closes.length - 2))
            (smaAt lw closes (closes.length - 2)) &&
          nanLt (smaAt sw closes (closes.length - 1))
            (smaAt lw closes (closes.length - 1)) then some "sell"
       else some "hold") := by
  simp only [simple_moving_average_strategy, if_neg h0, if_neg h2]

/-- Evaluation of the shadowed validated strategy past its three guards. -/
lemma validated_sma_eval (closes : List ℚ) (sw lw : Nat)
    (h0 : ¬closes.length = 0) (h1 : ¬closes.length < lw)
    (h2 : ¬closes.length < 2) :
    smaStrategyValidated closes sw lw =
      (if (smaAt sw closes (closes.length - 2)).isNone ||
          (smaAt lw closes (closes.length - 2)).isNone then "hold"
       else if nanLe (smaAt sw closes (closes.length - 2))
            (smaAt lw closes (closes.length - 2)) &&
          nanGt (smaAt sw closes (closes.length - 1))
            (smaAt lw closes (closes.length - 1)) then "buy"
       else if nanGe (smaAt sw closes (closes.length - 2))
            (smaAt lw closes (closes.length - 2)) &&
          nanLt (smaAt sw closes (closes.length - 1))
            (smaAt lw closes (closes.length - 1)) then "sell"
       else "hold") := by
  simp only [smaStrategyValidated, if_neg h0, if_neg h1, if_neg h2]

/-- Concrete values of the four moving averages on the scenario series. -/
lemma demo_sma_values :
    smaAt 2 demoSeries 49 = some 10 ∧ smaAt 5 demoSeries 49 = some 10 ∧
    smaAt 2 demoSeries 50 = some (21 / 2) ∧
    smaAt 5 demoSeries 50 = some (51 / 5) := by
  refine ⟨?_, ?_, ?_, ?_⟩ <;> norm_num [smaAt, demoSeries, List.replicate]

/-- C1: with at least long_window observations and all four moving averages
defined at the two most recent points, the effective strategy returns buy
iff previous short <= previous long and latest short is strictly greater
than latest long, sell iff the mirrored downward transition holds, and hold
otherwise; and on the scenario series of 50 closes of 10 followed by 11
with windows 2 and 5 it returns buy. -/
theorem C1_sma_crossover_characterization (closes : List ℚ) (sw lw : Nat)
    (ps pl ls ll : ℚ)
    (hlen : lw ≤ closes.length) (h2 : 2 ≤ closes.length)
    (hps : smaAt sw closes (closes.length - 2) = some ps)
    (hpl : smaAt lw closes (closes.length - 2) = some pl)
    (hls : smaAt sw closes (closes.length - 1) = some ls)
    (hll : smaAt lw closes (closes.length - 1) = some ll) :
    (simple_moving_average_strategy closes sw lw = some "buy" ↔
      ps ≤ pl ∧ ll < ls) ∧
    (simple_moving_average_strategy closes sw lw = some "sell" ↔
      pl ≤ ps ∧ ls < ll) ∧
    (simple_moving_average_strategy closes sw lw = some "hold" ↔
      ¬(ps ≤ pl ∧ ll < ls) ∧ ¬(pl ≤ ps ∧ ls < ll)) ∧
    simple_moving_average_strategy demoSeries 2 5 = some "buy" := by
  have hev := simple_sma_eval closes sw lw (by omega) (by omega)
  rw [hps, hpl, hls, hll] at hev
  have hdemo : simple_moving_average_strategy demoSeries 2 5 = some "buy" := by
    obtain ⟨d1, d2, d3, d4⟩ := demo_sma_values
    have hd := simple_sma_eval demoSeries 2 5 (by norm_num [demoSeries])
      (by norm_num [demoSeries])
    have hl : demoSeries.length = 51 := by norm_num [demoSeries]
    rw [hl] at hd
    norm_num [d1, d2, d3, d4] at hd
    exact hd
  refine ⟨?_, ?_, ?_, hdemo⟩
  all_goals rw [hev]
  all_goals by_cases h1 : ps ≤ pl <;> by_cases h3 : ll < ls <;>
    by_cases h5 : pl ≤ ps <;> by_cases h7 : ls < ll <;>
    simp [h1, h3, h5, h7] <;> linarith

/-- Witness for C1 at the scenario series. -/
theorem C1_witness : simple_moving_average_strategy demoSeries 2 5 =
    some "buy" := by
  obtain ⟨d1, d2, d3, d4⟩ := demo_sma_values
  have h := C1_sma_crossover_characterization demoSeries 2 5 10 10
    (21 / 2) (51 / 5) (by norm_num [demoSeries]) (by norm_num [demoSeries])
    (by rw [show demoSeries.length - 2 = 49 by norm_num [demoSeries]]; exact d1)
    (by rw [show demoSeries.length - 2 = 49 by norm_num [demoSeries]]; exact d2)
    (by rw [show demoSeries.length - 1 = 50 by norm_num [demoSeries]]; exact d3)
    (by rw [show demoSeries.length - 1 = 50 by norm_num [demoSeries]]; exact d4)
  exact h.1.mpr (by norm_num)

/-- C2: with at least long_window observations but a missing short or long
rolling average at the second-to-last position, the strategy fails closed
to hold; this holds for the validated definition (whose explicit missing
check fires) and for the effective shadowing definition (where every
comparison against the missing value is false). -/
theorem C2_missing_previous_average_holds (closes : List ℚ) (sw lw : Nat)
    (hlen : lw ≤ closes.length) (h2 : 2 ≤ closes.length)
    (hmiss : smaAt sw closes (closes.length - 2) = none ∨
      smaAt lw closes (closes.length - 2) = none) :
    smaStrategyValidated closes sw lw = "hold" ∧
    simple_moving_average_strategy closes sw lw = some "hold" := by
  constructor
  · rw [validated_sma_eval closes sw lw (by omega) (by omega) (by omega)]
    rcases hmiss with hm | hm <;> rw [hm] <;> simp
  · rw [simple_sma_eval closes sw lw (by omega) (by omega)]
    rcases hmiss with hm | hm <;> rw [hm] <;>
      cases smaAt lw closes (closes.length - 2) <;>
      cases smaAt sw closes (closes.length - 2) <;> simp

/-- Witness for C2: the two-element series [1, 2] with windows 1 and 2 has
no long average at the second-to-last position and yields hold. -/
theorem C2_witness : smaStrategyValidated [1, 2] 1 2 = "hold" ∧
    simple_moving_average_strategy [1, 2] 1 2 = some "hold" :=
  C2_missing_previous_average_holds [1, 2] 1 2 (by norm_num) (by norm_num)
    (Or.inr (by norm_num [smaAt]))

/-- C3: with fewer observations than long_window, including the empty
series, both definitions of the strategy return hold. -/
theorem C3_short_series_holds (closes : List ℚ) (sw lw : Nat)
    (hlen : closes.length < lw) :
    smaStrategyValidated closes sw lw = "hold" ∧
    simple_moving_average_strategy closes sw lw = some "hold" := by
  constructor
  · unfold smaStrategyValidated
    by_cases h0 : closes.length = 0 <;> simp [h0, hlen]
  · unfold simple_moving_average_strategy
    simp [hlen]

/-- Witness for C3 at the empty series with windows 20 and 50. -/
theorem C3_witness : smaStrategyValidated [] 20 50 = "hold" ∧
    simple_moving_average_strategy [] 20 50 = some "hold" :=
  C3_short_series_holds [] 20 50 (by norm_num)

/-- C10: the shadowed validated definition and the effective shadowing
definition of the strategy agree on every series when the windows are
positive with short_window < long_window, and the common result is one of
buy, sell, hold. The only behavioural gap between the two bodies, a series
of exactly long_window observations whose long average at the previous
point is missing, is absorbed by NaN comparison semantics: the shadowing
definition then fails every comparison and also returns hold. -/
theorem C10_shadowing_definitions_agree (closes : List ℚ) (sw lw : Nat)
    (hsw : 0 < sw) (hlt : sw < lw) :
    simple_moving_average_strategy closes sw lw =
      some (smaStrategyValidated closes sw lw) ∧
    (smaStrategyValidated closes sw lw = "buy" ∨
     smaStrategyValidated closes sw lw = "sell" ∨
     smaStrategyValidated closes sw lw = "hold") := by
  by_cases hshort : closes.length < lw
  · obtain ⟨hv, hb⟩ := C3_short_series_holds closes sw lw hshort
    exact ⟨by rw [hv, hb], Or.inr (Or.inr hv)⟩
  · have h2 : 2 ≤ closes.length := by omega
    have hps : (smaAt sw closes (closes.length - 2)).isSome := by
      rw [smaAt_isSome_iff]; omega
    obtain ⟨ps, hpse⟩ := Option.isSome_iff_exists.mp hps
    rw [simple_sma_eval closes sw lw (by omega) (by omega),
      validated_sma_eval closes sw lw (by omega) (by omega) (by omega), hpse]
    cases hple : smaAt lw closes (closes.length - 2) with
    | none => simp
    | some pl =>
      simp only [Option.isNone_some, Bool.or_self, Bool.false_eq_true,
        if_false]
      split_ifs <;> simp_all

/-- Witness for C10 on the scenario series with windows 2 and 5. -/
theorem C10_witness :
    simple_moving_average_strategy demoSeries 2 5 =
      some (smaStrategyValidated demoSeries 2 5) ∧
    (smaStrategyValidated demoSeries 2 5 = "buy" ∨
     smaStrategyValidated demoSeries 2 5 = "sell" ∨
     smaStrategyValidated demoSeries 2 5 = "hold") :=
  C10_shadowing_definitions_agree demoSeries 2 5 (by norm_num) (by norm_num)

/-- C4 counterexample: a failing account fetch propagates out of
get_account_info unchanged, because the function has no error handling;
the result is the error itself and is not a completed (ok) result, so the
failure does reach the caller as an unhandled exception. -/
theorem C4_counterexample :
    get_account_info (Except.error ApiError.network) =
      Except.error ApiError.network ∧
    (get_account_info (Except.error ApiError.network)).isOk = false :=
  ⟨rfl, rfl⟩

/-- C4 amended: get_account_info propagates a failing snapshot fetch to
its caller as an exception, and on a successful fetch returns the
four-field numeric mapping of the snapshot. -/
theorem C4_account_info_propagates (fetch : Except ApiError RawAccount) :
    (∀ e, fetch = .error e → get_account_info fetch = .error e) ∧
    (∀ a, fetch = .ok a → get_account_info fetch =
      .ok ⟨a.buying_power, a.cash, a.portfolio_value, a.equity⟩) := by
  constructor
  · rintro e rfl; rfl
  · rintro a rfl; rfl

/-- Witness for the amended C4 at a concrete failing fetch. -/
theorem C4_witness : get_account_info (Except.error ApiError.authFailure) =
    Except.error ApiError.authFailure :=
  (C4_account_info_propagates (Except.error ApiError.authFailure)).1
    ApiError.authFailure rfl

/-- C5: an invalid side (case-insensitively neither buy nor sell) makes
execute_trade return no order without invoking order submission, and for a
valid side a submission failure is caught and also yields no order. -/
theorem C5_execute_trade_validation (symbol : String) (qty : ℚ)
    (side : String)
    (submit : String → ℚ → String → Except ApiError Order) :
    (lower side ≠ "buy" ∧ lower side ≠ "sell" →
      execute_trade symbol qty side submit = (none, false)) ∧
    (∀ e, (lower side = "buy" ∨ lower side = "sell") →
      submit symbol qty side = .error e →
      execute_trade symbol qty side submit = (none, true)) := by
  constructor
  · intro h
    simp [execute_trade, h]
  · intro e hv hs
    have hnot : ¬(lower side ≠ "buy" ∧ lower side ≠ "sell") := by
      rcases hv with hv | hv <;> simp [hv]
    simp [execute_trade, hnot, hs]

/-- Witness for C5: the side "hold" yields no order without submission,
and a failing client on side "buy" yields no order after submission. -/
theorem C5_witness :
    execute_trade "AAPL" 1 "hold"
      (fun _ _ _ => Except.error ApiError.network) = (none, false) ∧
    execute_trade "AAPL" 1 "buy"
      (fun _ _ _ => Except.error ApiError.network) = (none, true) :=
  ⟨(C5_execute_trade_validation "AAPL" 1 "hold"
      (fun _ _ _ => Except.error ApiError.network)).1
      (by constructor <;> decide),
   (C5_execute_trade_validation "AAPL" 1 "buy"
      (fun _ _ _ => Except.error ApiError.network)).2
      ApiError.network (Or.inl (by decide)) rfl⟩

/-- C6: every read-only accessor degrades failures to a safe default:
get_position returns none on any client failure, check_market_hours
returns false on any failed clock query, is_symbol_tradeable returns false
on any failure and returns true exactly when the asset is tradable with
active status. -/
theorem C6_degraded_reads :
    (∀ e, get_position (.error e) = none) ∧
    (∀ e, check_market_hours (.error e) = false) ∧
    (∀ e, is_symbol_tradeable (.error e) = false) ∧
    (∀ a, is_symbol_tradeable (.ok a) = true ↔
      a.tradable = true ∧ a.status = "active") := by
  refine ⟨fun e => rfl, fun e => rfl, fun e => rfl, fun a => ?_⟩
  simp [is_symbol_tradeable]

/-- Witness for C6 at concrete failures and a concrete active asset. -/
theorem C6_witness :
    get_position (.error ApiError.notFound) = none ∧
    check_market_hours (.error ApiError.network) = false ∧
    is_symbol_tradeable (.error ApiError.notFound) = false ∧
    is_symbol_tradeable (.ok ⟨true, "active"⟩) = true :=
  ⟨C6_degraded_reads.1 ApiError.notFound,
   C6_degraded_reads.2.1 ApiError.network,
   C6_degraded_reads.2.2.1 ApiError.notFound,
   (C6_degraded_reads.2.2.2 ⟨true, "active"⟩).mpr ⟨rfl, rfl⟩⟩

/-- C7: in a running loop state, a successful iteration within the retry
budget resets the counter to zero, a failed iteration increments it by
one, and the loop shuts down on an iteration exactly when the counter has
reached the maximum, whose configured default is 3, regardless of the
event observed. -/
theorem C7_retry_semantics (max_r : Nat) (s : LoopState) (ev : BotEvent)
    (hrun : s.running = true) :
    run_bot_max_retries = 3 ∧
    (s.retry_count < max_r →
      (bot_step max_r s .tradeSuccess).1 = ⟨0, true⟩ ∧
      (bot_step max_r s .tradeFailure).1 = ⟨s.retry_count + 1, true⟩) ∧
    ((bot_step max_r s ev).1.running = false ↔ max_r ≤ s.retry_count) := by
  obtain ⟨rc, ru⟩ := s
  simp only [LoopState.running] at hrun
  subst hrun
  refine ⟨rfl, ?_, ?_⟩
  · intro hlt
    simp only [LoopState.retry_count] at hlt ⊢
    constructor <;> simp [bot_step, Nat.not_le.mpr hlt]
  · by_cases hm : max_r ≤ rc
    · simp [bot_step, hm]
    · cases ev <;> simp [bot_step, hm]

/-- Witness for C7: with the default maximum 3, a success at counter 2
resets to 0, a failure at counter 2 moves to 3, the loop keeps running at
counter 2 and shuts down at counter 3. -/
theorem C7_witness :
    (bot_step 3 ⟨2, true⟩ .tradeSuccess).1 = ⟨0, true⟩ ∧
    (bot_step 3 ⟨2, true⟩ .tradeFailure).1 = ⟨3, true⟩ ∧
    (bot_step 3 ⟨2, true⟩ .tradeFailure).1.running ≠ false ∧
    (bot_step 3 ⟨3, true⟩ .tradeSuccess).1.running = false := by
  obtain ⟨-, h1, -⟩ := C7_retry_semantics 3 ⟨2, true⟩ .tradeSuccess rfl
  obtain ⟨hs, hf⟩ := h1 (by norm_num)
  refine ⟨hs, hf, ?_, ?_⟩
  · rw [hf]; simp
  · exact (C7_retry_semantics 3 ⟨3, true⟩ .tradeSuccess rfl).2.2.mpr
      (by norm_num)

/-- C8: a market-closed iteration of a running loop within the retry
budget sleeps exactly 300 seconds and leaves the whole loop state,
retry counter included, unchanged. -/
theorem C8_market_closed_frame (max_r : Nat) (s : LoopState)
    (hrun : s.running = true) (hlt : s.retry_count < max_r) :
    bot_step max_r s .marketClosed = (s, 300) := by
  simp [bot_step, hrun, Nat.not_le.mpr hlt]

/-- Witness for C8 with the default maximum and a fresh counter. -/
theorem C8_witness : bot_step 3 ⟨0, true⟩ .marketClosed =
    (⟨0, true⟩, 300) :=
  C8_market_closed_frame 3 ⟨0, true⟩ rfl (by norm_num)

/-- C9 counterexample: with a successful clock probe but a failing account
fetch, construction does not complete; it propagates the account error, so
a successful probe alone does not guarantee completed construction. -/
theorem C9_counterexample :
    trading_bot_init (Except.ok ⟨true⟩)
      (Except.error ApiError.authFailure) =
      Except.error ApiError.authFailure ∧
    (trading_bot_init (Except.ok ⟨true⟩)
      (Except.error ApiError.authFailure)).isOk = false :=
  ⟨rfl, rfl⟩

/-- C9 amended: construction propagates a failing get_clock probe as a
fatal error; when the probe succeeds, construction completes exactly when
the subsequent account fetch succeeds, and propagates the account error
otherwise. -/
theorem C9_init_fail_fast (clock : Except ApiError Clock)
    (account : Except ApiError RawAccount) :
    (∀ e, clock = .error e → trading_bot_init clock account = .error e) ∧
    (∀ c a, clock = .ok c → account = .ok a →
      trading_bot_init clock account = .ok a) ∧
    (∀ c e, clock = .ok c → account = .error e →
      trading_bot_init clock account = .error e) := by
  refine ⟨?_, ?_, ?_⟩
  · rintro e rfl; rfl
  · rintro c a rfl rfl; rfl
  · rintro c e rfl rfl; rfl

/-- Witness for the amended C9 at a concrete failing probe. -/
theorem C9_witness :
    trading_bot_init (Except.error ApiError.network)
      (Except.ok ⟨0, 0, 0, 0⟩) = Except.error ApiError.network :=
  (C9_init_fail_fast (Except.error ApiError.network)
    (Except.ok ⟨0, 0, 0, 0⟩)).1 ApiError.network rfl
